import Mathlib

/-!
Shallow embedding of the React performance profiler's
aggregation-and-recommendation pipeline, together with verification of its
specified properties.

The embedding mirrors the three analyzers (bundle, rerender, memory) and the
report summary calculator:
* bundle analyzer (`analyzeWebpackStats` and helpers);
* rerender analyzer (`analyzeRenderEvents` and helpers);
* memory analyzer (`detectMemoryLeaks`, `calculateRetainedSize`,
  `generateMemoryRecommendations`);
* report generator (`calculateSummary`).

Modelling conventions:
* Optional ("possibly `undefined`") record fields become `Option`; the
  JavaScript idiom `x || d` on such a field becomes `Option.getD`
  (for strings, `jsStrOr`, which also maps the falsy empty string to the
  default).
* JavaScript numbers holding byte counts or event counts are `Nat`
  (heap deltas are `Int`); the floating-point averages computed by the code
  are modelled exactly in `ℚ`.
* `Array.prototype.sort` is stable in the reference runtime; it is modelled
  by the stable insertion sort `sortKeyDesc`.
* An expression that throws a `TypeError` at runtime (property access on
  `undefined`) is modelled by `Except.error`.
* Free-prose recommendation fields (`description`, `fix`, `codeExample`,
  `estimatedImpact`) and the `objects` payload of a leak are elided: no
  verified property reads them, and their text goes through locale/float
  formatting (`formatBytes`, `toFixed`).  `severity`, `category`, `title`,
  `type` and all numeric fields are kept.
-/

namespace ReactProfiler

/-! ## Generic helpers -/

/-- Containment of `pat` as a contiguous segment of a character list;
mirrors JavaScript `String.prototype.includes`. -/
def listContainsSeg (pat : List Char) : List Char → Bool
  | [] => pat.isEmpty
  | c :: rest => pat.isPrefixOf (c :: rest) || listContainsSeg pat rest

/-- Models `s.includes(pat)` on strings. -/
def strContains (s pat : String) : Bool := listContainsSeg pat.data s.data

/-- Models `s.endsWith(suf)`. -/
def strEndsWith (s suf : String) : Bool := suf.data.isSuffixOf s.data

/-- Drop the last `n` characters of a string. -/
def strDropRight (s : String) (n : Nat) : String :=
  String.mk (s.data.take (s.data.length - n))

/-- JavaScript `x || d` for an optional string field: `undefined` and the
falsy empty string both fall back to the default. -/
def jsStrOr (v : Option String) (d : String) : String :=
  match v with
  | some s => if s = "" then d else s
  | none => d

/-- Stable insertion (descending by `key`): `a` goes in front of the first
element whose key is `≤ key a`, i.e. after every strictly larger key and
before every equal one inserted earlier in the fold. -/
def insertKeyDesc (key : α → Nat) (a : α) : List α → List α
  | [] => [a]
  | x :: xs => if key x ≤ key a then a :: x :: xs else x :: insertKeyDesc key a xs

/-- Stable sort, descending by `key`; models the stable
`Array.prototype.sort((a, b) => key(b) - key(a))`. -/
def sortKeyDesc (key : α → Nat) (l : List α) : List α :=
  l.foldr (insertKeyDesc key) []

/-! ## Bundle analyzer: input data model (`WebpackStats`) -/

/-- One webpack output asset: `{name, size}`, both possibly absent. -/
structure Asset where
  name : Option String
  size : Option Nat
deriving DecidableEq

/-- One webpack chunk record as consumed by `analyzeChunks`. -/
structure RawChunk where
  id : Option String
  names : Option (List String)
  size : Option Nat
  files : Option (List String)
  initial : Option Bool
  modules : Option (List String)
  parents : Option (List String)
deriving DecidableEq

/-- One webpack module record: `{name, size, identifier, depth, reasons}`;
a reason carries an optional `moduleName`. -/
structure RawModule where
  name : Option String
  size : Option Nat
  identifier : Option String
  depth : Option Nat
  reasons : Option (List (Option String))
deriving DecidableEq

/-- The webpack statistics object consumed by the bundle analyzer. -/
structure WebpackStats where
  assets : List Asset
  chunks : List RawChunk
  modules : Option (List RawModule)
deriving DecidableEq

/-! ## Bundle analyzer: derived records -/

structure ChunkInfo where
  name : String
  size : Nat
  files : List String
  modules : Nat
  isInitial : Bool
  parentChunks : List String
deriving DecidableEq

structure ModuleInfo where
  name : String
  size : Nat
  path : String
  reasons : List String
  depth : Nat
deriving DecidableEq

structure DuplicateModule where
  name : String
  instances : Nat
  totalSize : Nat
  locations : List String
deriving DecidableEq

/-- Recommendation severity. -/
inductive Severity where
  | critical
  | warning
  | info
deriving DecidableEq

/-- Advisory record; prose-only fields elided (see module docstring). -/
structure Recommendation where
  severity : Severity
  category : String
  title : String
deriving DecidableEq

/-- Asset-class byte totals. -/
structure Metrics where
  jsSize : Nat
  cssSize : Nat
  imageSize : Nat
  otherSize : Nat
deriving DecidableEq

structure BundleAnalysis where
  totalSize : Nat
  chunks : List ChunkInfo
  largeModules : List ModuleInfo
  duplicates : List DuplicateModule
  recommendations : List Recommendation
  metrics : Metrics
deriving DecidableEq

/-! ## Bundle analyzer: functions -/

/-- Computes `chunk.names?.[0] || chunk.id?.toString() || 'unknown'`. -/
def chunkDisplayName (chunk : RawChunk) : String :=
  jsStrOr (chunk.names.getD []).head? (jsStrOr chunk.id "unknown")

/-- Map one raw chunk to its summary record. -/
def toChunkInfo (chunk : RawChunk) : ChunkInfo :=
  { name := chunkDisplayName chunk
    size := chunk.size.getD 0
    files := chunk.files.getD []
    modules := (chunk.modules.getD []).length
    isInitial := chunk.initial.getD false
    parentChunks := chunk.parents.getD [] }

/-- Models `analyzeChunks`: map then stable sort by size descending. -/
def analyzeChunks (stats : WebpackStats) : List ChunkInfo :=
  sortKeyDesc (fun c => c.size) (stats.chunks.map toChunkInfo)

/-- Map one raw module to its summary record. -/
def toModuleInfo (m : RawModule) : ModuleInfo :=
  { name := jsStrOr m.name "unknown"
    size := m.size.getD 0
    path := m.identifier.getD ""
    reasons := (m.reasons.getD []).map (fun r => jsStrOr r "unknown")
    depth := m.depth.getD 0 }

/-- Models `findLargeModules`: keep modules above 50,000 bytes, sort by size
descending, keep the top 20. -/
def findLargeModules (stats : WebpackStats) : List ModuleInfo :=
  ((sortKeyDesc (fun m => m.size)
    (((stats.modules.getD []).filter (fun m => 50000 < m.size.getD 0)).map toModuleInfo))).take 20

/-- The regex `/([^/\\]+)\.[jt]sx?$/` strips one of the four JS/TS
extensions; the captured stem is the maximal run of non-separator
characters before the extension dot and must be nonempty.  On no match the
full name is returned. -/
def extractModuleName (fullName : String) : String :=
  let exts := [".jsx", ".tsx", ".js", ".ts"]
  match exts.find? (fun suf => strEndsWith fullName suf) with
  | some suf =>
    let base := strDropRight fullName suf.length
    let stem := String.mk ((base.data.reverse.takeWhile
        (fun c => !(c = '/' || c = '\\'))).reverse)
    if stem = "" then fullName else stem
  | none => fullName

/-- The grouping key used by `findDuplicateModules`, or `none` when the
module is skipped (`!name || name.includes('webpack') ||
name.includes('node_modules')`, on the extracted name). -/
def dupKey (m : RawModule) : Option String :=
  let name := extractModuleName (m.name.getD "")
  if name = "" || strContains name "webpack" || strContains name "node_modules" then
    none
  else
    some name

/-- Accumulator entry of the duplicate-module map. -/
structure DupData where
  instances : Nat
  totalSize : Nat
  locations : List String
deriving DecidableEq

/-- Update the insertion-ordered association list for one module
occurrence; mirrors the `Map` get/set in `findDuplicateModules`. -/
def bumpDup (key : String) (size : Nat) (loc : String) :
    List (String × DupData) → List (String × DupData)
  | [] => [(key, ⟨1, size, [loc]⟩)]
  | (k, d) :: rest =>
    if k = key then
      (k, ⟨d.instances + 1, d.totalSize + size, d.locations ++ [loc]⟩) :: rest
    else
      (k, d) :: bumpDup key size loc rest

/-- Process one module of the `forEach` in `findDuplicateModules`. -/
def dupStep (acc : List (String × DupData)) (m : RawModule) :
    List (String × DupData) :=
  match dupKey m with
  | none => acc
  | some name => bumpDup name (m.size.getD 0) (m.identifier.getD "") acc

/-- Fold all modules into the duplicate map. -/
def dupEntries (ms : List RawModule) : List (String × DupData) :=
  ms.foldl dupStep []

/-- Turn one kept map entry into the emitted `DuplicateModule` record. -/
def toDuplicateModule (e : String × DupData) : DuplicateModule :=
  { name := e.1, instances := e.2.instances,
    totalSize := e.2.totalSize, locations := e.2.locations }

/-- Models `findDuplicateModules`: group by extracted base name, keep groups with
more than one instance, sort by total size descending. -/
def findDuplicateModules (stats : WebpackStats) : List DuplicateModule :=
  sortKeyDesc (fun d => d.totalSize)
    (((dupEntries (stats.modules.getD [])).filter
        (fun e => 1 < e.2.instances)).map toDuplicateModule)

/-- Image suffix test for `.png|.jpg|.jpeg|.gif|.svg|.webp`. -/
def isImageName (n : String) : Bool :=
  strEndsWith n ".png" || strEndsWith n ".jpg" || strEndsWith n ".jpeg" ||
  strEndsWith n ".gif" || strEndsWith n ".svg" || strEndsWith n ".webp"

/-- Add one asset's size to the bucket chosen by its filename suffix. -/
def addAssetToMetrics (m : Metrics) (a : Asset) : Metrics :=
  let size := a.size.getD 0
  let name := a.name.getD ""
  if strEndsWith name ".js" then { m with jsSize := m.jsSize + size }
  else if strEndsWith name ".css" then { m with cssSize := m.cssSize + size }
  else if isImageName name then { m with imageSize := m.imageSize + size }
  else { m with otherSize := m.otherSize + size }

/-- Models `calculateMetrics`: bucket every asset's size by filename suffix. -/
def calculateMetrics (stats : WebpackStats) : Metrics :=
  stats.assets.foldl addAssetToMetrics ⟨0, 0, 0, 0⟩

set_option linter.unusedVariables false in
/-- Models `generateBundleRecommendations`.  Note that the bundle-size rule sums
the chunk sizes, not the asset sizes.  The `metrics` argument is accepted
and never read, as in the source. -/
def generateBundleRecommendations (chunks : List ChunkInfo)
    (largeModules : List ModuleInfo) (duplicates : List DuplicateModule)
    (metrics : Metrics) : List Recommendation :=
  let totalSize := chunks.foldl (fun sum c => sum + c.size) 0
  (if 500000 < totalSize then
    [{ severity := .critical, category := "bundle-size",
       title := "Bundle size exceeds recommended limit" }]
  else [])
  ++ (chunks.filter (fun c => 250000 < c.size)).map
      (fun c => { severity := .warning, category := "chunk-size",
                  title := "Large chunk detected: " ++ c.name })
  ++ (largeModules.take 3).map
      (fun m => { severity := .warning, category := "large-module",
                  title := "Large module: " ++ m.name })
  ++ (duplicates.take 3).map
      (fun d => { severity := .warning, category := "duplicate-modules",
                  title := "Duplicate module: " ++ d.name })

/-- Models `analyzeWebpackStats`: the bundle analyzer's aggregation entry point. -/
def analyzeWebpackStats (stats : WebpackStats) : BundleAnalysis :=
  let chunks := analyzeChunks stats
  let largeModules := findLargeModules stats
  let duplicates := findDuplicateModules stats
  let metrics := calculateMetrics stats
  let recommendations :=
    generateBundleRecommendations chunks largeModules duplicates metrics
  { totalSize := stats.assets.foldl (fun sum a => sum + a.size.getD 0) 0
    chunks := chunks
    largeModules := largeModules
    duplicates := duplicates
    recommendations := recommendations
    metrics := metrics }

/-! ## Rerender analyzer -/

/-- One observed render of a component. -/
structure RenderEvent where
  componentName : String
  timestamp : Nat
  duration : ℚ
  causeType : String
  details : String
deriving DecidableEq

/-- One distinct render cause of a component group. -/
structure RerenderCause where
  type : String
  count : Nat
  details : String
deriving DecidableEq

structure ComponentRerenderInfo where
  name : String
  renderCount : Nat
  avgRenderTime : ℚ
  causes : List RerenderCause
  isUnnecessary : Bool
deriving DecidableEq

structure RerenderAnalysis where
  components : List ComponentRerenderInfo
  totalRerenders : Nat
  unnecessaryRerenders : Nat
  recommendations : List Recommendation
deriving DecidableEq

/-- Append one event to its component's group, keeping the `Map`'s
insertion order of keys and the arrival order inside each group. -/
def groupInsert (e : RenderEvent) :
    List (String × List RenderEvent) → List (String × List RenderEvent)
  | [] => [(e.componentName, [e])]
  | (k, es) :: rest =>
    if k = e.componentName then (k, es ++ [e]) :: rest
    else (k, es) :: groupInsert e rest

/-- Group events by `componentName`. -/
def groupEvents (events : List RenderEvent) : List (String × List RenderEvent) :=
  events.foldl (fun acc e => groupInsert e acc) []

/-- Distinct cause types of a group, in order of first appearance
(the `causeCounts` map's key insertion order). -/
def distinctCauseTypes (events : List RenderEvent) : List String :=
  events.foldl
    (fun acc e => if acc.contains e.causeType then acc else acc ++ [e.causeType])
    []

/-- Per-cause counts, with the `details` string of the first matching
event (`?.details || ''`). -/
def mkCauses (events : List RenderEvent) : List RerenderCause :=
  (distinctCauseTypes events).map
    (fun t =>
      { type := t
        count := (events.filter (fun e => e.causeType = t)).length
        details := ((events.find? (fun e => e.causeType = t)).map
            (fun e => e.details)).getD "" })

/-- Analyze one component's group of render events. -/
def mkComponentInfo (name : String) (renderEvents : List RenderEvent) :
    ComponentRerenderInfo :=
  let renderCount := renderEvents.length
  let avgRenderTime : ℚ :=
    (renderEvents.map (fun e => e.duration)).sum / (renderCount : ℚ)
  { name := name
    renderCount := renderCount
    avgRenderTime := avgRenderTime
    causes := mkCauses renderEvents
    isUnnecessary := decide (5 < renderCount ∧ avgRenderTime < 5) }

/-- Models `generateRerenderRecommendations`. -/
def generateRerenderRecommendations (components : List ComponentRerenderInfo) :
    List Recommendation :=
  (((components.filter (fun c => 10 < c.renderCount)).take 5).flatMap
    (fun c =>
      (match c.causes.find? (fun x => x.type = "props") with
       | some propsCauses =>
         if 5 < propsCauses.count then
           [{ severity := .warning, category := "excessive-renders",
              title := "Component \"" ++ c.name ++ "\" re-renders frequently" }]
         else []
       | none => [])
      ++ (match c.causes.find? (fun x => x.type = "state") with
       | some stateCauses =>
         if 5 < stateCauses.count then
           [{ severity := .warning, category := "state-updates",
              title := "Component \"" ++ c.name ++ "\" has frequent state updates" }]
         else []
       | none => [])))
  ++ ((components.filter (fun c => 16 < c.avgRenderTime)).take 3).map
      (fun c => { severity := .critical, category := "slow-renders",
                  title := "Component \"" ++ c.name ++ "\" renders slowly" })

/-- Models `analyzeRenderEvents`: group, analyze, tally, sort by render count
descending (stable), then derive recommendations from the sorted list. -/
def analyzeRenderEvents (events : List RenderEvent) : RerenderAnalysis :=
  let groups := groupEvents events
  let componentsUnsorted := groups.map (fun g => mkComponentInfo g.1 g.2)
  let totalRerenders := (groups.map (fun g => g.2.length)).sum
  let unnecessaryRerenders :=
    ((componentsUnsorted.filter (fun c => c.isUnnecessary)).map
      (fun c => c.renderCount)).sum
  let components := sortKeyDesc (fun c => c.renderCount) componentsUnsorted
  { components := components
    totalRerenders := totalRerenders
    unnecessaryRerenders := unnecessaryRerenders
    recommendations := generateRerenderRecommendations components }

/-! ## Memory analyzer -/

/-- One heap sample. -/
structure MemorySnapshot where
  timestamp : Nat
  heapUsed : Nat
  heapTotal : Nat
  external : Nat
  arrayBuffers : Nat
deriving DecidableEq

/-- A leak finding; prose description and the `objects` payload elided. -/
structure MemoryLeak where
  type : String
  severity : Severity
  retainedSize : Int
deriving DecidableEq

/-- The message of the `TypeError` thrown by indexing past the end of the
snapshot list and dereferencing the resulting `undefined`. -/
def jsUndefinedError : String := "TypeError: Cannot read properties of undefined"

/-- Consecutive `heapUsed` deltas (`snapshots[i].heapUsed - snapshots[i-1].heapUsed`). -/
def growthRates : List Nat → List Int
  | a :: b :: rest => ((b : Int) - (a : Int)) :: growthRates (b :: rest)
  | _ => []

/-- Arithmetic mean of the consecutive deltas, as an exact rational. -/
def consistentGrowthMean (snapshots : List MemorySnapshot) : ℚ :=
  let rates := growthRates (snapshots.map (fun s => s.heapUsed))
  ((rates.sum : ℚ)) / ((rates.length : ℚ))

/-- The `large-increase` trigger `(memoryIncrease / initialMemory) * 100 > 50`,
with the JavaScript division-by-zero cases made explicit: for
`initialMemory = 0` the quotient is `Infinity` (trigger fires) when the
increase is positive, and `NaN` or `-Infinity` (no trigger) otherwise. -/
def largeIncreaseFires (initialMemory finalMemory : Nat) : Bool :=
  let memoryIncrease : Int := (finalMemory : Int) - (initialMemory : Int)
  if initialMemory = 0 then decide (0 < memoryIncrease)
  else decide (50 < ((memoryIncrease : ℚ) / (initialMemory : ℚ)) * 100)

/-- The fixed `detached-dom` stub finding. -/
def detachedDOMNodesLeak : MemoryLeak :=
  { type := "detached-dom", severity := .warning, retainedSize := 524288 }

/-- The fixed `event-listeners` stub finding. -/
def eventListenerLeak : MemoryLeak :=
  { type := "event-listeners", severity := .warning, retainedSize := 262144 }

/-- Models `detectMemoryLeaks`.  Rule 1 (consistent growth) is guarded by
`snapshots.length >= 3`; rule 2 then reads `snapshots[0].heapUsed` and
`snapshots[snapshots.length - 1].heapUsed` unconditionally, which throws a
`TypeError` on an empty snapshot list (modelled by `Except.error`). -/
def detectMemoryLeaks (snapshots : List MemorySnapshot) :
    Except String (List MemoryLeak) :=
  let rule1 : List MemoryLeak :=
    if 3 ≤ snapshots.length then
      let avgGrowth := consistentGrowthMean snapshots
      if 1048576 < avgGrowth then
        [{ type := "consistent-growth", severity := .critical,
           retainedSize := Int.floor (avgGrowth * (snapshots.length : ℚ)) }]
      else []
    else []
  match snapshots.head?, snapshots.getLast? with
  | some first, some last =>
    let rule2 : List MemoryLeak :=
      if largeIncreaseFires first.heapUsed last.heapUsed then
        [{ type := "large-increase", severity := .warning,
           retainedSize := (last.heapUsed : Int) - (first.heapUsed : Int) }]
      else []
    .ok (rule1 ++ rule2 ++ [detachedDOMNodesLeak] ++ [eventListenerLeak])
  | _, _ => .error jsUndefinedError

/-- Models `calculateRetainedSize`: `max(0, final - initial)`, `0` below two
snapshots. -/
def calculateRetainedSize (snapshots : List MemorySnapshot) : Int :=
  if snapshots.length < 2 then 0
  else
    match snapshots.head?, snapshots.getLast? with
    | some first, some last =>
      max 0 ((last.heapUsed : Int) - (first.heapUsed : Int))
    | _, _ => 0

/-- Models `generateMemoryRecommendations`.  The final high-memory check reads
`snapshots[snapshots.length - 1].heapUsed` unconditionally, which throws a
`TypeError` on an empty snapshot list. -/
def generateMemoryRecommendations (snapshots : List MemorySnapshot)
    (leaks : List MemoryLeak) : Except String (List Recommendation) :=
  let leakRecs :=
    (leaks.filter (fun l => l.severity = Severity.critical)).map
      (fun leak => { severity := Severity.critical, category := "memory-leak",
                     title := "Memory leak detected: " ++ leak.type
                     : Recommendation })
  let detachedRecs :=
    match leaks.find? (fun l => l.type = "detached-dom") with
    | some _ => [{ severity := Severity.warning, category := "detached-dom",
                   title := "Detached DOM nodes detected" : Recommendation }]
    | none => []
  let eventRecs :=
    match leaks.find? (fun l => l.type = "event-listeners") with
    | some _ => [{ severity := Severity.warning, category := "event-listeners",
                   title := "Event listeners not properly cleaned up"
                   : Recommendation }]
    | none => []
  match snapshots.getLast? with
  | some lastSnapshot =>
    .ok (leakRecs ++ detachedRecs ++ eventRecs ++
      (if 52428800 < lastSnapshot.heapUsed then
        [{ severity := Severity.warning, category := "high-memory",
           title := "High memory usage detected" : Recommendation }]
      else []))
  | none => .error jsUndefinedError

/-! ## Report generator -/

structure MemoryAnalysis where
  snapshots : List MemorySnapshot
  leaks : List MemoryLeak
  heapSize : Nat
  retainedSize : Int
  recommendations : List Recommendation
deriving DecidableEq

/-- The optional per-analyzer outputs of one run. -/
structure Analyses where
  bundle : Option BundleAnalysis
  rerenders : Option RerenderAnalysis
  memory : Option MemoryAnalysis
deriving DecidableEq

structure SummaryInfo where
  totalIssues : Nat
  criticalIssues : Nat
  warnings : Nat
  suggestions : List String
deriving DecidableEq

/-- The merged result record (the `timestamp : Date` field is elided). -/
structure AnalysisResult where
  projectPath : String
  analyses : Analyses
  summary : SummaryInfo
deriving DecidableEq

/-- The concatenation `[...bundle?.recommendations || [], ...rerenders?...,
...memory?...]` built by `calculateSummary`. -/
def allRecommendations (results : AnalysisResult) : List Recommendation :=
  ((results.analyses.bundle.map (fun b => b.recommendations)).getD [])
  ++ ((results.analyses.rerenders.map (fun r => r.recommendations)).getD [])
  ++ ((results.analyses.memory.map (fun m => m.recommendations)).getD [])

/-- Models `calculateSummary`: recompute the summary from the present
recommendation lists (the source mutates `results.summary` in place; the
model returns the updated record). -/
def calculateSummary (results : AnalysisResult) : AnalysisResult :=
  let allRecs := allRecommendations results
  { results with
    summary :=
      { totalIssues := allRecs.length
        criticalIssues :=
          (allRecs.filter (fun r => r.severity = Severity.critical)).length
        warnings :=
          (allRecs.filter (fun r => r.severity = Severity.warning)).length
        suggestions := allRecs.map (fun r => r.category ++ ": " ++ r.title) } }

/-! ## Derived measures and concrete instances -/

/-- Sum of the four asset-class buckets. -/
def metricsTotal (m : Metrics) : Nat :=
  m.jsSize + m.cssSize + m.imageSize + m.otherSize

/-- Number of modules of `ms` grouped under the key `b`. -/
def keyCount (ms : List RawModule) (b : String) : Nat :=
  (ms.filter (fun m => dupKey m = some b)).length

/-- Instance count recorded for key `b` in the accumulator (`0` when the
key is absent). -/
def entryInstances (l : List (String × DupData)) (b : String) : Nat :=
  ((l.find? (fun e => e.1 = b)).map (fun e => e.2.instances)).getD 0

/-- Claim C1, as stated, is false: one asset of 600,000 bytes and no
chunks gives `totalSize = 600000 > 500000` with an empty recommendation
list. -/
def claim1CexStats : WebpackStats :=
  { assets := [{ name := some "main.js", size := some 600000 }]
    chunks := []
    modules := none }

/-- One initial chunk of 600,000 bytes triggers the bundle-size rule. -/
def claim1WitnessStats : WebpackStats :=
  { assets := []
    chunks := [{ id := some "0", names := some ["main"], size := some 600000,
                 files := some ["main.js"], initial := some true,
                 modules := some ["a", "b"], parents := some [] }]
    modules := none }

/-- Claim C2, as stated, is false: both modules' raw names contain the
substring `node_modules`, so by the claim they would be excluded, yet the
code groups them under the extracted stem `index` and reports a duplicate
group of two instances. -/
def claim2CexStats : WebpackStats :=
  { assets := []
    chunks := []
    modules := some
      [{ name := some "node_modules/a/index.js", size := some 100,
         identifier := some "node_modules/a/index.js", depth := some 1,
         reasons := none },
       { name := some "node_modules/b/index.js", size := some 50,
         identifier := some "node_modules/b/index.js", depth := some 1,
         reasons := none }] }

/-- Two first-party modules sharing the stem `util`. -/
def claim2WitnessStats : WebpackStats :=
  { assets := []
    chunks := []
    modules := some
      [{ name := some "src/a/util.ts", size := some 10,
         identifier := some "src/a/util.ts", depth := some 1, reasons := none },
       { name := some "src/b/util.ts", size := some 20,
         identifier := some "src/b/util.ts", depth := some 2, reasons := none }] }

/-- Seven cheap props-caused renders of one component. -/
def claim6Event : RenderEvent :=
  { componentName := "A", timestamp := 0, duration := 1,
    causeType := "props", details := "shallow prop change" }

def claim6Events : List RenderEvent := List.replicate 7 claim6Event

def claim9WitnessStats : WebpackStats :=
  { assets := []
    chunks := []
    modules := some
      [{ name := some "vendor/big.js", size := some 60000,
         identifier := some "vendor/big.js", depth := some 0, reasons := none },
       { name := some "src/small.ts", size := some 10,
         identifier := some "src/small.ts", depth := some 1, reasons := none }] }

/-- Snapshot constructor shared by the concrete memory instances. -/
def mkSnap (h : Nat) : MemorySnapshot :=
  { timestamp := 0, heapUsed := h, heapTotal := 0, external := 0,
    arrayBuffers := 0 }

/-- The spec's memory example: 10, 12, 14, 16 MiB of heap. -/
def claim7Snaps : List MemorySnapshot :=
  [mkSnap 10485760, mkSnap 12582912, mkSnap 14680064, mkSnap 16777216]

/-- Three snapshots whose consecutive deltas average 2,097,153.5 bytes, a
non-integer, so `Math.floor` strictly lowers the projected size. -/
def claim7CexSnaps : List MemorySnapshot :=
  [mkSnap 0, mkSnap 2097153, mkSnap 4194307]

/-! ## Properties of the stable descending sort -/

theorem mem_insertKeyDesc {key : α → Nat} {a b : α} {l : List α} :
    b ∈ insertKeyDesc key a l ↔ b = a ∨ b ∈ l := by
  induction l with
  | nil => simp [insertKeyDesc]
  | cons x xs ih =>
    rw [insertKeyDesc]
    split
    · simp [List.mem_cons]
    · simp only [List.mem_cons, ih]
      tauto

theorem insertKeyDesc_perm (key : α → Nat) (a : α) (l : List α) :
    (insertKeyDesc key a l).Perm (a :: l) := by
  induction l with
  | nil => simp [insertKeyDesc]
  | cons x xs ih =>
    rw [insertKeyDesc]
    split
    · exact List.Perm.refl _
    · exact (ih.cons x).trans (List.Perm.swap a x xs)

theorem sortKeyDesc_perm (key : α → Nat) (l : List α) :
    (sortKeyDesc key l).Perm l := by
  induction l with
  | nil => exact List.Perm.refl _
  | cons x xs ih =>
    exact (insertKeyDesc_perm key x (sortKeyDesc key xs)).trans (ih.cons x)

theorem pairwise_insertKeyDesc {key : α → Nat} {a : α} {l : List α}
    (h : l.Pairwise (fun x y => key y ≤ key x)) :
    (insertKeyDesc key a l).Pairwise (fun x y => key y ≤ key x) := by
  induction l with
  | nil => simp [insertKeyDesc]
  | cons x xs ih =>
    rw [insertKeyDesc]
    rcases List.pairwise_cons.mp h with ⟨hx, hxs⟩
    split
    · next hle =>
      refine List.pairwise_cons.mpr ⟨?_, h⟩
      intro b hb
      rcases List.mem_cons.mp hb with rfl | hbxs
      · exact hle
      · exact le_trans (hx b hbxs) hle
    · next hgt =>
      refine List.pairwise_cons.mpr ⟨?_, ih hxs⟩
      intro b hb
      rcases mem_insertKeyDesc.mp hb with rfl | hbxs
      · omega
      · exact hx b hbxs

theorem sortKeyDesc_pairwise (key : α → Nat) (l : List α) :
    (sortKeyDesc key l).Pairwise (fun x y => key y ≤ key x) := by
  induction l with
  | nil => simp [sortKeyDesc]
  | cons x xs ih => exact pairwise_insertKeyDesc ih

theorem filter_insertKeyDesc (key : α → Nat) (a : α) (l : List α) (s : Nat) :
    (insertKeyDesc key a l).filter (fun x => key x = s)
      = if key a = s then a :: l.filter (fun x => key x = s)
        else l.filter (fun x => key x = s) := by
  induction l with
  | nil =>
    by_cases has : key a = s <;> simp [insertKeyDesc, List.filter, has]
  | cons x xs ih =>
    rw [insertKeyDesc]
    split
    · next hle =>
      by_cases has : key a = s <;> simp [List.filter_cons, has]
    · next hgt =>
      by_cases has : key a = s
      · have hxs : ¬ (key x = s) := by omega
        simp [List.filter_cons, has, hxs, ih]
      · by_cases hxx : key x = s <;> simp [List.filter_cons, has, hxx, ih]

/-- Stability of the sort: the subsequence of elements with any fixed key
value is unchanged. -/
theorem sortKeyDesc_filter_key (key : α → Nat) (l : List α) (s : Nat) :
    (sortKeyDesc key l).filter (fun x => key x = s)
      = l.filter (fun x => key x = s) := by
  induction l with
  | nil => rfl
  | cons x xs ih =>
    show (insertKeyDesc key x (sortKeyDesc key xs)).filter _ = _
    rw [filter_insertKeyDesc]
    by_cases h : key x = s <;> simp [h, List.filter_cons, ih]

/-- Accumulation law for the bundle analyzer's
`reduce((sum, x) => sum + f(x), 0)` idioms. -/
theorem foldl_add_eq_sum (f : α → Nat) (l : List α) (n : Nat) :
    l.foldl (fun sum a => sum + f a) n = n + (l.map f).sum := by
  induction l generalizing n with
  | nil => simp
  | cons a rest ih => simp [ih, Nat.add_assoc]

/-! ## Bundle analyzer lemmas -/

theorem metricsTotal_foldl (l : List Asset) (m : Metrics) :
    metricsTotal (l.foldl addAssetToMetrics m)
      = metricsTotal m + (l.map (fun a => a.size.getD 0)).sum := by
  induction l generalizing m with
  | nil => simp
  | cons a rest ih =>
    rw [List.foldl_cons, ih]
    simp only [addAssetToMetrics, metricsTotal, List.map_cons, List.sum_cons]
    split_ifs <;> dsimp only <;> omega

theorem generateBundleRecommendations_critical_iff (chunks : List ChunkInfo)
    (largeModules : List ModuleInfo) (duplicates : List DuplicateModule)
    (metrics : Metrics) :
    (∃ r ∈ generateBundleRecommendations chunks largeModules duplicates metrics,
        r.severity = Severity.critical ∧ r.category = "bundle-size")
      ↔ 500000 < (chunks.map (fun c => c.size)).sum := by
  unfold generateBundleRecommendations
  rw [foldl_add_eq_sum, Nat.zero_add]
  dsimp only
  constructor
  · rintro ⟨r, hr, hsev, hcat⟩
    by_contra hle
    rw [if_neg hle] at hr
    simp only [List.nil_append, List.mem_append, List.mem_map] at hr
    rcases hr with (⟨c, _, rfl⟩ | ⟨m, _, rfl⟩) | ⟨d, _, rfl⟩ <;> simp at hsev
  · intro h
    refine ⟨{ severity := Severity.critical, category := "bundle-size",
              title := "Bundle size exceeds recommended limit" }, ?_, rfl, rfl⟩
    rw [if_pos h]
    simp

/-- The sum of the derived (sorted) chunk sizes equals the sum of the raw
chunk sizes with missing sizes as `0`. -/
theorem analyzeChunks_size_sum (stats : WebpackStats) :
    ((analyzeChunks stats).map (fun c => c.size)).sum
      = (stats.chunks.map (fun c => c.size.getD 0)).sum := by
  have hperm := ((sortKeyDesc_perm (fun c : ChunkInfo => c.size)
    (stats.chunks.map toChunkInfo)).map (fun c : ChunkInfo => c.size)).sum_eq
  have hdef : (analyzeChunks stats).map (fun c : ChunkInfo => c.size)
      = (sortKeyDesc (fun c : ChunkInfo => c.size) (stats.chunks.map toChunkInfo)).map
          (fun c : ChunkInfo => c.size) := rfl
  rw [hdef, hperm, List.map_map]
  rfl

/-! ## Claim theorems: bundle analyzer -/

/-- Claim C8: the produced chunks summary is sorted by size descending,
and among chunks of equal size the original input order is preserved
(the filtered subsequence at every fixed size is untouched). -/
theorem claim8_chunks_sorted_stable (stats : WebpackStats) :
    (analyzeWebpackStats stats).chunks.Pairwise (fun a b => b.size ≤ a.size) ∧
    ∀ s : Nat, (analyzeWebpackStats stats).chunks.filter (fun c => c.size = s)
      = (stats.chunks.map toChunkInfo).filter (fun c => c.size = s) := by
  have hdef : (analyzeWebpackStats stats).chunks
      = sortKeyDesc (fun c : ChunkInfo => c.size) (stats.chunks.map toChunkInfo) := rfl
  rw [hdef]
  exact ⟨sortKeyDesc_pairwise _ _, fun s => sortKeyDesc_filter_key _ _ s⟩

/-- Claim C9: `largeModules` has at most 20 entries, every entry has size
strictly above 50,000 bytes, and the list is sorted by size descending. -/
theorem claim9_largeModules (stats : WebpackStats) :
    (analyzeWebpackStats stats).largeModules.length ≤ 20 ∧
    (∀ m ∈ (analyzeWebpackStats stats).largeModules, 50000 < m.size) ∧
    (analyzeWebpackStats stats).largeModules.Pairwise (fun a b => b.size ≤ a.size) := by
  have hdef : (analyzeWebpackStats stats).largeModules
      = (sortKeyDesc (fun m : ModuleInfo => m.size)
          (((stats.modules.getD []).filter (fun m => 50000 < m.size.getD 0)).map
            toModuleInfo)).take 20 := rfl
  rw [hdef]
  refine ⟨by simp, ?_, ?_⟩
  · intro m hm
    have hm1 := List.take_subset 20 _ hm
    have hm2 := (sortKeyDesc_perm (fun m : ModuleInfo => m.size) _).subset hm1
    rcases List.mem_map.mp hm2 with ⟨raw, hraw, rfl⟩
    have hsz := (List.mem_filter.mp hraw).2
    simpa [toModuleInfo] using hsz
  · exact (sortKeyDesc_pairwise _ _).sublist (List.take_sublist _ _)

/-- Claim C4: the four asset-class buckets partition the assets, so their
sum equals the sum of all asset sizes (which is also the analysis
`totalSize`). -/
theorem claim4_metrics_partition (stats : WebpackStats) :
    (analyzeWebpackStats stats).metrics.jsSize
      + (analyzeWebpackStats stats).metrics.cssSize
      + (analyzeWebpackStats stats).metrics.imageSize
      + (analyzeWebpackStats stats).metrics.otherSize
      = (stats.assets.map (fun a => a.size.getD 0)).sum ∧
    (analyzeWebpackStats stats).totalSize
      = (stats.assets.map (fun a => a.size.getD 0)).sum := by
  constructor
  · have h1 : (analyzeWebpackStats stats).metrics = calculateMetrics stats := rfl
    rw [h1]
    have := metricsTotal_foldl stats.assets ⟨0, 0, 0, 0⟩
    simpa [calculateMetrics, metricsTotal] using this
  · have h2 : (analyzeWebpackStats stats).totalSize
        = stats.assets.foldl (fun sum a => sum + a.size.getD 0) 0 := rfl
    rw [h2, foldl_add_eq_sum, Nat.zero_add]

/-- Claim C1 (amended): the `critical`/`bundle-size` recommendation is
present if and only if the sum of the *chunk* sizes exceeds 500,000 bytes —
not the sum of the asset sizes that defines `totalSize`. -/
theorem claim1_bundle_size_rec_iff (stats : WebpackStats) :
    (∃ r ∈ (analyzeWebpackStats stats).recommendations,
        r.severity = Severity.critical ∧ r.category = "bundle-size")
      ↔ 500000 < (stats.chunks.map (fun c => c.size.getD 0)).sum := by
  have hdef : (analyzeWebpackStats stats).recommendations
      = generateBundleRecommendations (analyzeChunks stats) (findLargeModules stats)
          (findDuplicateModules stats) (calculateMetrics stats) := rfl
  rw [hdef, generateBundleRecommendations_critical_iff, analyzeChunks_size_sum]

theorem claim1_counterexample :
    500000 < (analyzeWebpackStats claim1CexStats).totalSize ∧
    (analyzeWebpackStats claim1CexStats).recommendations = [] := by
  constructor <;> decide

theorem claim1_bundle_size_rec_iff_witness :
    ∃ r ∈ (analyzeWebpackStats claim1WitnessStats).recommendations,
      r.severity = Severity.critical ∧ r.category = "bundle-size" :=
  (claim1_bundle_size_rec_iff claim1WitnessStats).mpr (by decide)

/-! ## Duplicate-module counting lemmas -/

theorem entryInstances_bumpDup (k : String) (sz : Nat) (loc : String)
    (l : List (String × DupData)) (b : String) :
    entryInstances (bumpDup k sz loc l) b
      = if k = b then entryInstances l b + 1 else entryInstances l b := by
  induction l with
  | nil =>
    by_cases h : k = b <;> simp [bumpDup, entryInstances, List.find?_cons, h]
  | cons e rest ih =>
    obtain ⟨k', d⟩ := e
    rw [bumpDup]
    by_cases h1 : k' = k
    · rw [if_pos h1]
      subst h1
      by_cases h2 : k' = b <;> simp [entryInstances, List.find?_cons, h2]
    · rw [if_neg h1]
      by_cases h2 : k' = b
      · have hkb : ¬ (k = b) := fun hh => h1 (h2.trans hh.symm)
        simp [entryInstances, List.find?_cons, h2, hkb]
      · simpa [entryInstances, List.find?_cons, h2] using ih

theorem entryInstances_dupFold (ms : List RawModule) (b : String) :
    ∀ acc : List (String × DupData),
      entryInstances (ms.foldl dupStep acc) b
        = entryInstances acc b + keyCount ms b := by
  induction ms with
  | nil => simp [keyCount]
  | cons m rest ih =>
    intro acc
    rw [List.foldl_cons, ih]
    rcases hk : dupKey m with _ | name
    · have hcnt : keyCount (m :: rest) b = keyCount rest b := by
        simp [keyCount, List.filter_cons, hk]
      rw [hcnt, dupStep, hk]
    · rw [dupStep, hk, entryInstances_bumpDup]
      by_cases h : name = b
      · have hcnt : keyCount (m :: rest) b = keyCount rest b + 1 := by
          simp [keyCount, List.filter_cons, hk, h]
        rw [hcnt, if_pos h]
        omega
      · have hcnt : keyCount (m :: rest) b = keyCount rest b := by
        -- `some name = some b` fails since `name ≠ b`
          simp [keyCount, List.filter_cons, hk, h]
        rw [hcnt, if_neg h]

/-! ## Claim theorems: duplicate modules -/

/-- Claim C2 (amended): the exclusion filter of the duplicate grouping
applies to the *extracted* base filename (`dupKey`), not to the raw module
name; every key shared by at least two kept modules yields a group whose
`instances` equals the observed count. -/
theorem claim2_duplicates_present (stats : WebpackStats) (b : String)
    (h : 2 ≤ keyCount (stats.modules.getD []) b) :
    ∃ d ∈ (analyzeWebpackStats stats).duplicates,
      d.name = b ∧ d.instances = keyCount (stats.modules.getD []) b := by
  have hinst : entryInstances (dupEntries (stats.modules.getD [])) b
      = keyCount (stats.modules.getD []) b := by
    have := entryInstances_dupFold (stats.modules.getD []) b []
    simpa [dupEntries, entryInstances] using this
  rcases hfind : (dupEntries (stats.modules.getD [])).find? (fun e => e.1 = b)
    with _ | e
  · rw [entryInstances, hfind] at hinst
    simp at hinst
    omega
  · have hmem := List.mem_of_find?_eq_some hfind
    have hkey : e.1 = b := by simpa using List.find?_some hfind
    have hin : e.2.instances = keyCount (stats.modules.getD []) b := by
      rw [entryInstances, hfind] at hinst
      simpa using hinst
    have hfil : e ∈ (dupEntries (stats.modules.getD [])).filter
        (fun x => 1 < x.2.instances) :=
      List.mem_filter.mpr ⟨hmem, by simp only [decide_eq_true_eq]; omega⟩
    have hmap : toDuplicateModule e
        ∈ ((dupEntries (stats.modules.getD [])).filter
            (fun x => 1 < x.2.instances)).map toDuplicateModule :=
      List.mem_map_of_mem _ hfil
    refine ⟨toDuplicateModule e, ?_, hkey, hin⟩
    show _ ∈ findDuplicateModules stats
    exact ((sortKeyDesc_perm _ _).mem_iff).mpr hmap

theorem claim2_counterexample :
    (∀ m ∈ claim2CexStats.modules.getD [],
      strContains (m.name.getD "") "node_modules" = true) ∧
    (findDuplicateModules claim2CexStats).map (fun d => (d.name, d.instances))
      = [("index", 2)] := by
  constructor <;> decide

theorem claim2_duplicates_present_witness :
    2 ≤ keyCount (claim2WitnessStats.modules.getD []) "util" ∧
    ∃ d ∈ (analyzeWebpackStats claim2WitnessStats).duplicates,
      d.name = "util"
        ∧ d.instances = keyCount (claim2WitnessStats.modules.getD []) "util" :=
  ⟨by decide, claim2_duplicates_present claim2WitnessStats "util" (by decide)⟩

/-! ## Rerender analyzer lemmas -/

theorem groupInsert_length_sum (e : RenderEvent)
    (l : List (String × List RenderEvent)) :
    ((groupInsert e l).map (fun g => g.2.length)).sum
      = ((l.map (fun g => g.2.length)).sum) + 1 := by
  induction l with
  | nil => simp [groupInsert]
  | cons g rest ih =>
    rw [groupInsert]
    split
    · simp only [List.map_cons, List.sum_cons, List.length_append,
        List.length_cons, List.length_nil]
      omega
    · simp only [List.map_cons, List.sum_cons, ih]
      omega

theorem groupEvents_foldl_length_sum (events : List RenderEvent) :
    ∀ acc : List (String × List RenderEvent),
      (((events.foldl (fun a e => groupInsert e a) acc).map
          (fun g => g.2.length)).sum)
        = ((acc.map (fun g => g.2.length)).sum) + events.length := by
  induction events with
  | nil => simp
  | cons e rest ih =>
    intro acc
    rw [List.foldl_cons, ih, groupInsert_length_sum, List.length_cons]
    omega

/-! ## Claim theorems: rerender analyzer -/

/-- Claim C5: `totalRerenders` equals the input event count for every
stream, and the empty stream yields empty components, zero total and no
recommendations. -/
theorem claim5_totalRerenders (events : List RenderEvent) :
    (analyzeRenderEvents events).totalRerenders = events.length ∧
    (analyzeRenderEvents []).components = [] ∧
    (analyzeRenderEvents []).totalRerenders = 0 ∧
    (analyzeRenderEvents []).recommendations = [] := by
  refine ⟨?_, rfl, rfl, rfl⟩
  have hdef : (analyzeRenderEvents events).totalRerenders
      = ((groupEvents events).map (fun g => g.2.length)).sum := rfl
  rw [hdef]
  have := groupEvents_foldl_length_sum events []
  simpa [groupEvents] using this

/-- Claim C6: `isUnnecessary` holds exactly when the group has more than 5
renders averaging under 5 ms, and `unnecessaryRerenders` is the sum of
`renderCount` over exactly the flagged groups. -/
theorem claim6_isUnnecessary (events : List RenderEvent) :
    (∀ c ∈ (analyzeRenderEvents events).components,
      (c.isUnnecessary = true ↔ 5 < c.renderCount ∧ c.avgRenderTime < 5)) ∧
    (analyzeRenderEvents events).unnecessaryRerenders
      = (((analyzeRenderEvents events).components.filter
            (fun c => c.isUnnecessary)).map (fun c => c.renderCount)).sum := by
  constructor
  · intro c hc
    have hc1 : c ∈ sortKeyDesc (fun c : ComponentRerenderInfo => c.renderCount)
        ((groupEvents events).map (fun g => mkComponentInfo g.1 g.2)) := hc
    have hc2 := (sortKeyDesc_perm _ _).subset hc1
    rcases List.mem_map.mp hc2 with ⟨g, _, rfl⟩
    have hdef : (mkComponentInfo g.1 g.2).isUnnecessary
        = decide (5 < (mkComponentInfo g.1 g.2).renderCount
            ∧ (mkComponentInfo g.1 g.2).avgRenderTime < 5) := rfl
    rw [hdef]
    exact decide_eq_true_iff
  · have hdef : (analyzeRenderEvents events).unnecessaryRerenders
        = ((((groupEvents events).map (fun g => mkComponentInfo g.1 g.2)).filter
            (fun c => c.isUnnecessary)).map (fun c => c.renderCount)).sum := rfl
    rw [hdef]
    exact (((((sortKeyDesc_perm (fun c : ComponentRerenderInfo => c.renderCount)
      ((groupEvents events).map (fun g => mkComponentInfo g.1 g.2)))).filter
        (fun c => c.isUnnecessary)).map (fun c => c.renderCount)).sum_eq).symm

theorem claim6_isUnnecessary_witness :
    (analyzeRenderEvents claim6Events).unnecessaryRerenders
      = (((analyzeRenderEvents claim6Events).components.filter
            (fun c => c.isUnnecessary)).map (fun c => c.renderCount)).sum ∧
    (analyzeRenderEvents claim6Events).unnecessaryRerenders = 7 := by
  refine ⟨(claim6_isUnnecessary claim6Events).2, ?_⟩
  norm_num [analyzeRenderEvents, groupEvents, groupInsert, mkComponentInfo,
    claim6Events, claim6Event, List.replicate, distinctCauseTypes, mkCauses,
    sortKeyDesc, insertKeyDesc, List.foldl, List.map, List.filter]

theorem claim9_largeModules_witness :
    (analyzeWebpackStats claim9WitnessStats).largeModules.length ≤ 20 ∧
    (∀ m ∈ (analyzeWebpackStats claim9WitnessStats).largeModules, 50000 < m.size) ∧
    (analyzeWebpackStats claim9WitnessStats).largeModules.Pairwise
      (fun a b => b.size ≤ a.size) :=
  claim9_largeModules claim9WitnessStats

/-! ## Claim theorems: memory analyzer -/

/-- Claim C3 is contradicted by the code: on an empty snapshot sequence
both `detectMemoryLeaks` (line `snapshots[0].heapUsed`) and
`generateMemoryRecommendations` (line
`snapshots[snapshots.length - 1].heapUsed`) dereference `undefined` and
throw instead of returning an empty summary. -/
theorem claim3_empty_snapshots_throw :
    detectMemoryLeaks [] = Except.error jsUndefinedError ∧
    generateMemoryRecommendations [] [] = Except.error jsUndefinedError :=
  ⟨rfl, rfl⟩

/-- Claim C7 (amended): with at least 3 snapshots the analysis succeeds; a
`consistent-growth` leak is present iff the mean consecutive delta exceeds
1 MiB, and such a leak is `critical` with `retainedSize` equal to the
*floor* of mean-delta × snapshot-count (the code applies `Math.floor`). -/
theorem claim7_consistent_growth (snapshots : List MemorySnapshot)
    (h : 3 ≤ snapshots.length) :
    ∃ leaks, detectMemoryLeaks snapshots = Except.ok leaks ∧
      ((∃ leak ∈ leaks, leak.type = "consistent-growth")
        ↔ 1048576 < consistentGrowthMean snapshots) ∧
      (∀ leak ∈ leaks, leak.type = "consistent-growth" →
        leak.severity = Severity.critical ∧
        leak.retainedSize
          = Int.floor (consistentGrowthMean snapshots * (snapshots.length : ℚ))) := by
  obtain ⟨f, hf⟩ : ∃ f, snapshots.head? = some f := by
    cases snapshots with
    | nil => simp at h
    | cons a l => exact ⟨a, rfl⟩
  obtain ⟨la, hla⟩ : ∃ la, snapshots.getLast? = some la := by
    have hne : snapshots ≠ [] := by rintro rfl; simp at h
    exact Option.isSome_iff_exists.mp (List.getLast?_isSome.mpr hne)
  unfold detectMemoryLeaks
  rw [hf, hla, if_pos h]
  refine ⟨_, rfl, ?_, ?_⟩
  · constructor
    · rintro ⟨leak, hlk, htype⟩
      by_contra hnm
      rw [if_neg hnm] at hlk
      simp only [List.nil_append, List.mem_append, List.mem_singleton] at hlk
      rcases hlk with (hlk | rfl) | rfl
      · split at hlk
        · rcases List.mem_singleton.mp hlk with rfl
          exact absurd htype (by simp)
        · exact absurd hlk (List.not_mem_nil _)
      · exact absurd htype (by decide)
      · exact absurd htype (by decide)
    · intro hm
      refine ⟨{ type := "consistent-growth", severity := Severity.critical,
                retainedSize :=
                  Int.floor (consistentGrowthMean snapshots
                    * (snapshots.length : ℚ)) }, ?_, rfl⟩
      rw [if_pos hm]
      exact List.mem_append.mpr (Or.inl (List.mem_append.mpr (Or.inl
        (List.mem_append.mpr (Or.inl (List.mem_singleton.mpr rfl))))))
  · intro leak hlk htype
    simp only [List.mem_append, List.mem_singleton] at hlk
    rcases hlk with ((hlk | hlk) | rfl) | rfl
    · split at hlk
      · rcases List.mem_singleton.mp hlk with rfl
        exact ⟨rfl, rfl⟩
      · exact absurd hlk (List.not_mem_nil _)
    · split at hlk
      · rcases List.mem_singleton.mp hlk with rfl
        exact absurd htype (by simp)
      · exact absurd hlk (List.not_mem_nil _)
    · exact absurd htype (by decide)
    · exact absurd htype (by decide)

theorem claim7_consistent_growth_witness :
    3 ≤ claim7Snaps.length ∧
    consistentGrowthMean claim7Snaps = 2097152 ∧
    (∃ leak ∈ (detectMemoryLeaks claim7Snaps).toOption.getD [],
      leak.type = "consistent-growth" ∧ leak.severity = Severity.critical ∧
      leak.retainedSize = 8388608) ∧
    calculateRetainedSize claim7Snaps = 6291456 := by
  have hmean : consistentGrowthMean claim7Snaps = 2097152 := by
    simp only [consistentGrowthMean, growthRates, claim7Snaps, mkSnap, List.map]
    norm_num
  obtain ⟨leaks, hok, hiff, hall⟩ :=
    claim7_consistent_growth claim7Snaps (by decide)
  obtain ⟨leak, hlk, htype⟩ := hiff.mpr (by rw [hmean]; norm_num)
  have hsev := hall leak hlk htype
  refine ⟨by decide, hmean, ⟨leak, ?_, htype, hsev.1, ?_⟩, ?_⟩
  · rw [hok]
    exact hlk
  · rw [hsev.2, hmean]
    simp only [claim7Snaps, List.length_cons, List.length_nil]
    norm_num
  · simp only [calculateRetainedSize, claim7Snaps, mkSnap, List.head?,
      List.getLast?, List.length]
    norm_num

/-- Claim C7, as stated, is false on this input: the emitted
`consistent-growth` leak carries `retainedSize = 6291460`, while the mean
delta times the snapshot count is `12582921 / 2 = 6291460.5`. -/
theorem claim7_counterexample :
    (∃ leak ∈ (detectMemoryLeaks claim7CexSnaps).toOption.getD [],
      leak.type = "consistent-growth" ∧ leak.retainedSize = 6291460) ∧
    consistentGrowthMean claim7CexSnaps * (claim7CexSnaps.length : ℚ)
      = 12582921 / 2 ∧
    ((6291460 : ℚ) ≠ 12582921 / 2) := by
  have hdet : detectMemoryLeaks claim7CexSnaps =
      Except.ok
        [{ type := "consistent-growth", severity := Severity.critical,
           retainedSize := 6291460 },
         { type := "large-increase", severity := Severity.warning,
           retainedSize := 4194307 },
         detachedDOMNodesLeak, eventListenerLeak] := by
    simp only [detectMemoryLeaks, consistentGrowthMean, growthRates,
      claim7CexSnaps, mkSnap, List.map, largeIncreaseFires, List.head?,
      List.getLast?, List.length]
    norm_num
  refine ⟨⟨{ type := "consistent-growth", severity := Severity.critical,
             retainedSize := 6291460 }, ?_, rfl, rfl⟩, ?_, by norm_num⟩
  · rw [hdet]
    exact List.mem_cons_self _ _
  · simp only [consistentGrowthMean, growthRates, claim7CexSnaps, mkSnap,
      List.map, List.length_cons, List.length_nil]
    norm_num

/-! ## Claim theorems: report generator -/

/-- Claim C10: the recomputed summary counts the concatenated
recommendation lists, the two severity subsets are counted by filtering,
and the recomputation is idempotent. -/
theorem claim10_summary (results : AnalysisResult) :
    (calculateSummary results).summary.totalIssues
      = (allRecommendations results).length ∧
    (calculateSummary results).summary.criticalIssues
      = ((allRecommendations results).filter
          (fun r => r.severity = Severity.critical)).length ∧
    (calculateSummary results).summary.warnings
      = ((allRecommendations results).filter
          (fun r => r.severity = Severity.warning)).length ∧
    calculateSummary (calculateSummary results) = calculateSummary results :=
  ⟨rfl, rfl, rfl, rfl⟩

end ReactProfiler
